import Mathlib

/-!
Shallow embedding of the lookalike-audience batch tool (`src/app.py`).

Numbers: Python floats are modelled as exact rationals (`ℚ`); Python `int()`
(truncation toward zero) is `pyInt`.  The result of parsing a ratio string
with `float(...)` is modelled as an `Option ℚ` (`none` = the parse raises).
Remote Facebook API calls are modelled as oracle functions supplied as
arguments: an oracle maps the request parameters actually sent to the
outcome the remote service produces (success payload, `FacebookRequestError`
with a message, or an arbitrary other exception with a message).
-/

namespace App

/-- Truncation toward zero on rationals: the behaviour of Python `int(x)`
applied to a number `x`. -/
def pyInt (q : ℚ) : ℤ := Int.tdiv q.num q.den

/-- Upper-casing of a string, modelling Python `str.upper()` on the
country codes used here. -/
def strUpper (s : String) : String := ⟨s.data.map Char.toUpper⟩

/-- Check that `pat` occurs at the head of `l` (character-wise). -/
def headMatch : List Char → List Char → Bool
  | _, [] => true
  | [], _ :: _ => false
  | a :: l, b :: p => a == b && headMatch l p

/-- Check that `pat` occurs somewhere in `l`. -/
def containsAt (pat : List Char) : List Char → Bool
  | [] => headMatch [] pat
  | c :: l => headMatch (c :: l) pat || containsAt pat l

/-- Substring containment, modelling Python `pat in s` on strings. -/
def strContains (s pat : String) : Bool := containsAt pat.data s.data

/-- Lookalike display name computed at `src/app.py:108-109`:
`f"{country.upper()}-{int(float(ratio)*100)}%-{source_audience_name}"`,
for an already-parsed ratio `q`. -/
def lookalike_name_of (country : String) (q : ℚ) (source_audience_name : String) : String :=
  strUpper country ++ "-" ++ toString (pyInt (q * 100)) ++ "%-" ++ source_audience_name

/-- The `lookalike_spec` dict built at `src/app.py:112-119`. -/
structure LookalikeSpec where
  origin_audience_id : String
  starting_ratio : ℚ
  ratio : ℚ
  location_countries : List String
  deriving DecidableEq

/-- The `lookalike_spec` value for a given source id, parsed ratio and country
(`src/app.py:112-119`); `0.01` is the rational `1/100`. -/
def lookalike_spec_of (source_audience_id : String) (q : ℚ) (country : String) : LookalikeSpec :=
  { origin_audience_id := source_audience_id
    starting_ratio := if q > 1 / 100 then q - 1 / 100 else 0
    ratio := q
    location_countries := [country] }

/-- The request sent by `create_custom_audience` at `src/app.py:121-128`:
the receiving account (`act_{ad_account_id}`) together with the `params` dict. -/
structure CreateParams where
  act_account : String
  name : String
  subtype : String
  origin_audience_id : String
  lookalike_spec : LookalikeSpec
  deriving DecidableEq

/-- The creation request issued for one task (`src/app.py:121-128`). -/
def create_params_of (ad_account_id source_audience_id source_audience_name country : String)
    (q : ℚ) : CreateParams :=
  { act_account := "act_" ++ ad_account_id
    name := lookalike_name_of country q source_audience_name
    subtype := "LOOKALIKE"
    origin_audience_id := source_audience_id
    lookalike_spec := lookalike_spec_of source_audience_id q country }

/-- Outcome of one remote `create_custom_audience` call: success with the
assigned id, a `FacebookRequestError` carrying `api_error_message()`, or any
other exception carrying its `str(...)` rendering. -/
inductive CreateOutcome where
  | ok (id : String)
  | apiError (msg : String)
  | exn (msg : String)
  deriving DecidableEq

/-- The dict returned by `create_lookalike_audience` (`src/app.py:129-137`):
`id` is present exactly on success, `reason` exactly on skip/failure. -/
structure TaskResult where
  status : String
  name : String
  id : Option String
  reason : Option String
  deriving DecidableEq

/-- A source audience as selected in the UI: `{id, name}` (`src/app.py:217-220`). -/
structure SourceAudience where
  id : String
  name : String
  deriving DecidableEq

/-- Body of `create_lookalike_audience` (`src/app.py:111-137`) for an
already-parsed ratio `q`: build the request, send it through the oracle
`remote`, and classify the outcome.  The skip branch fires when the API error
message contains `"name is already used"` and the strategy is `"skip"`. -/
def run_task (ad_account_id conflict_strategy : String) (remote : CreateParams → CreateOutcome)
    (src : SourceAudience) (country : String) (q : ℚ) : TaskResult :=
  let nm := lookalike_name_of country q src.name
  match remote (create_params_of ad_account_id src.id src.name country q) with
  | .ok rid => { status := "success", name := nm, id := some rid, reason := none }
  | .apiError msg =>
      if strContains msg "name is already used" && (conflict_strategy == "skip") then
        { status := "skipped", name := nm, id := none, reason := some "同名受眾已存在" }
      else
        { status := "failed", name := nm, id := none, reason := some msg }
  | .exn msg => { status := "failed", name := nm, id := none, reason := some msg }

/-- The function `create_lookalike_audience` (`src/app.py:106-137`).  The
`float(ratio)` parse at line 108 happens before the `try` block, so a ratio
string that does not parse (`ratio = none`) makes the call raise
(`.error`) instead of returning a classified result. -/
def create_lookalike_audience (ad_account_id source_audience_id source_audience_name country :
    String) (ratio : Option ℚ) (conflict_strategy : String)
    (remote : CreateParams → CreateOutcome) : Except String TaskResult :=
  match ratio with
  | none => .error "could not convert string to float"
  | some q =>
      .ok (run_task ad_account_id conflict_strategy remote
        ⟨source_audience_id, source_audience_name⟩ country q)

/-- One batch task: a source audience, a country, and the parse result of one
ratio string (`src/app.py:251-253`). -/
abbrev BatchTask := SourceAudience × String × Option ℚ

/-- Mutable state of the batch loop (`src/app.py:228-278`): `total_tasks`,
`tasks_done`, `results`, and the three rendered outcome lists, plus the ghost
trace `calls` of every creation request actually issued to the remote
service. -/
structure BatchState where
  total : ℕ
  tasks_done : ℕ
  results : List TaskResult
  success_list : List String
  skipped_list : List String
  failed_list : List String
  calls : List CreateParams
  deriving DecidableEq

/-- Rendering of a success entry (`src/app.py:269`). -/
def fmtSuccess (res : TaskResult) : String :=
  "**" ++ res.name ++ "** (ID: `" ++ res.id.getD "" ++ "`)"

/-- Rendering of a skipped or failed entry (`src/app.py:272` and `275`). -/
def fmtReason (res : TaskResult) : String :=
  "**" ++ res.name ++ "**: " ++ res.reason.getD ""

/-- State update for one completed task (`src/app.py:265-276`): append to
`results`, bump `tasks_done`, and append the rendered entry to exactly the
bucket selected by the `if/elif/else` chain on the result status. -/
def recordResult (st : BatchState) (res : TaskResult) (call : CreateParams) : BatchState :=
  let st1 : BatchState :=
    { st with
      results := st.results ++ [res]
      tasks_done := st.tasks_done + 1
      calls := st.calls ++ [call] }
  if res.status = "success" then
    { st1 with success_list := st1.success_list ++ [fmtSuccess res] }
  else if res.status = "skipped" then
    { st1 with skipped_list := st1.skipped_list ++ [fmtReason res] }
  else
    { st1 with failed_list := st1.failed_list ++ [fmtReason res] }

/-- One iteration of the innermost loop body (`src/app.py:254-278`).  When the
ratio string does not parse, `int(float(ratio)*100)` at line 254 (and line 108)
raises before any remote call, aborting the whole run with the state
unchanged; otherwise the task runs and the state is updated. -/
def batchStep (ad_account_id conflict_strategy : String)
    (remote : CreateParams → CreateOutcome) (st : BatchState) (t : BatchTask) :
    Except (String × BatchState) BatchState :=
  match t.2.2 with
  | none => .error ("could not convert string to float", st)
  | some q =>
      .ok (recordResult st (run_task ad_account_id conflict_strategy remote t.1 t.2.1 q)
        (create_params_of ad_account_id t.1.id t.1.name t.2.1 q))

/-- The batch loop over a list of tasks (`src/app.py:251-278`), threading the
state; an unhandled exception aborts the remaining tasks and surfaces the
state reached so far. -/
def runBatchAux (ad_account_id conflict_strategy : String)
    (remote : CreateParams → CreateOutcome) :
    BatchState → List BatchTask → Except (String × BatchState) BatchState
  | st, [] => .ok st
  | st, t :: ts =>
      match batchStep ad_account_id conflict_strategy remote st t with
      | .error e => .error e
      | .ok st2 => runBatchAux ad_account_id conflict_strategy remote st2 ts

/-- Task enumeration order of the three nested `for` loops
(`src/app.py:251-253`): source outer, country middle, ratio inner. -/
def taskTriples (sources : List SourceAudience) (countries : List String)
    (ratios : List (Option ℚ)) : List BatchTask :=
  sources.flatMap (fun s => countries.flatMap (fun c => ratios.map (fun r => (s, c, r))))

/-- The count `total_tasks = len(selected_audiences) * len(countries) * len(ratios)`
(`src/app.py:228`). -/
def total_tasks (sources : List SourceAudience) (countries : List String)
    (ratios : List (Option ℚ)) : ℕ :=
  sources.length * countries.length * ratios.length

/-- The batch state right after the button is pressed
(`src/app.py:233-249`): zero tasks done and all lists empty. -/
def initState (total : ℕ) : BatchState :=
  { total := total, tasks_done := 0, results := [], success_list := [],
    skipped_list := [], failed_list := [], calls := [] }

/-- Result of the whole batch section: either the incomplete-configuration
notice (`src/app.py:225-226`) or a run of the loop. -/
inductive BatchOutcome where
  | incomplete (msg : String)
  | ran (r : Except (String × BatchState) BatchState)

/-- The info message shown when sources, countries or ratios are missing
(`src/app.py:226`). -/
def incompleteMsg : String := "請先完成上方所有選項的設定（選擇來源受眾、國家、比例）。"

/-- The batch section (`src/app.py:225-278`): when any of the three input
lists is empty the batch never starts and the incomplete-configuration notice
is shown; otherwise the loop runs over the full triple product. -/
def runBatch (ad_account_id : String) (sources : List SourceAudience)
    (countries : List String) (ratios : List (Option ℚ)) (conflict_strategy : String)
    (remote : CreateParams → CreateOutcome) : BatchOutcome :=
  if sources = [] ∨ countries = [] ∨ ratios = [] then .incomplete incompleteMsg
  else
    .ran (runBatchAux ad_account_id conflict_strategy remote
      (initState (total_tasks sources countries ratios))
      (taskTriples sources countries ratios))

/-- The params dict of the audience-listing request (`src/app.py:73-83`):
the six requested fields and the page-size cap. -/
structure ListingParams where
  fields : List String
  limit : ℕ
  deriving DecidableEq

/-- The listing request actually sent by `get_custom_audiences`
(`src/app.py:73-84`). -/
def listing_params : ListingParams :=
  { fields := ["id", "name", "description", "approximate_count_lower_bound",
      "audience_subtype", "time_updated"]
    limit := 500 }

/-- One audience as returned by the remote listing call, restricted to the
values the code reads (`src/app.py:86-93`); `approximate_count_lower_bound`
is `none` when the key is absent (the `.get` default case), and the value is
kept in its displayed form. -/
structure RawAudience where
  id : String
  name : String
  approximate_count_lower_bound : Option String
  audience_subtype : String
  time_updated : String
  deriving DecidableEq

/-- One row of `audiences_data` (`src/app.py:87-93`). -/
structure AudienceRecord where
  id : String
  name : String
  size : String
  subtype : String
  updated_time : String
  deriving DecidableEq

/-- Conversion of one raw audience to a row (`src/app.py:87-93`); `fmt` is the
external `pd.to_datetime(...).strftime` timestamp formatter. -/
def toRecord (fmt : String → String) (a : RawAudience) : AudienceRecord :=
  { id := a.id, name := a.name, size := a.approximate_count_lower_bound.getD "N/A",
    subtype := a.audience_subtype, updated_time := fmt a.time_updated }

/-- Order used at `src/app.py:96`: `a` may come before `b` when its
`updated_time` key is at least that of `b` (descending sort). -/
def updatedDesc (a b : AudienceRecord) : Prop := b.updated_time ≤ a.updated_time

instance : DecidableRel updatedDesc :=
  fun a b => inferInstanceAs (Decidable (b.updated_time ≤ a.updated_time))

instance : IsTotal AudienceRecord updatedDesc :=
  ⟨fun a b => le_total b.updated_time a.updated_time⟩

instance : IsTrans AudienceRecord updatedDesc :=
  ⟨fun _ _ _ h1 h2 => le_trans h2 h1⟩

/-- The in-place descending sort of `audiences_data` by the update-time key
(`src/app.py:96`). -/
def sortByUpdatedDesc (l : List AudienceRecord) : List AudienceRecord :=
  List.insertionSort updatedDesc l

/-- Outcome of the remote `get_custom_audiences` call: the audience page, a
`FacebookRequestError` with `api_error_message()`, or any other exception. -/
inductive ListingOutcome where
  | ok (audiences : List RawAudience)
  | apiError (msg : String)
  | exn (msg : String)

/-- The function `get_custom_audiences` (`src/app.py:64-103`): build the rows,
sort them by `updated_time` descending, and on either error class return an
empty listing together with a prefixed human-readable message. -/
def get_custom_audiences (fmt : String → String)
    (oracle : ListingParams → ListingOutcome) : List AudienceRecord × Option String :=
  match oracle listing_params with
  | .ok raw => (sortByUpdatedDesc (raw.map (toRecord fmt)), none)
  | .apiError m => ([], some ("獲取受眾失敗 (API 錯誤): " ++ m))
  | .exn m => ([], some ("獲取受眾失敗 (未知錯誤): " ++ m))

/-- Generic triple product in the loop nesting order of `src/app.py:251-253`:
source outer, country middle, ratio inner. -/
def tripleProd {α : Type} (sources : List SourceAudience) (countries : List String)
    (ratios : List α) : List (SourceAudience × String × α) :=
  sources.flatMap (fun s => countries.flatMap (fun c => ratios.map (fun r => (s, c, r))))

/-- Embedding of a list of fully-parsed tasks into batch tasks. -/
def withParsed (ts : List (SourceAudience × String × ℚ)) : List BatchTask :=
  ts.map (fun t => (t.1, t.2.1, some t.2.2))

/-- One loop iteration on a parsed task, as a fold step. -/
def foldStep (ad_account_id conflict_strategy : String)
    (remote : CreateParams → CreateOutcome) (st : BatchState)
    (t : SourceAudience × String × ℚ) : BatchState :=
  recordResult st (run_task ad_account_id conflict_strategy remote t.1 t.2.1 t.2.2)
    (create_params_of ad_account_id t.1.id t.1.name t.2.1 t.2.2)

/-- Bucket membership test of the first branch of `src/app.py:268`. -/
def succP (r : TaskResult) : Bool := r.status == "success"

/-- Bucket membership test of the `elif` branch of `src/app.py:271`. -/
def skipP (r : TaskResult) : Bool := !(r.status == "success") && (r.status == "skipped")

/-- Bucket membership test of the `else` branch of `src/app.py:274`. -/
def failP (r : TaskResult) : Bool := !(r.status == "success") && !(r.status == "skipped")

/-- The batch-state invariant of the spec: `completed` never exceeds `total` and
the three bucket lengths sum to `completed`. -/
def invariantHolds (st : BatchState) : Prop :=
  st.tasks_done ≤ st.total ∧
  st.success_list.length + st.skipped_list.length + st.failed_list.length = st.tasks_done

/-- The invariant evaluated on the state surfaced by a (possibly aborted)
run. -/
def reachedInvariant : Except (String × BatchState) BatchState → Prop
  | .ok st => invariantHolds st
  | .error (_, st) => invariantHolds st

/-- Representation of the three rendered buckets as filters of the result
list, in order. -/
def bucketRep (st : BatchState) : Prop :=
  st.success_list = (st.results.filter succP).map fmtSuccess ∧
  st.skipped_list = (st.results.filter skipP).map fmtReason ∧
  st.failed_list = (st.results.filter failP).map fmtReason

/-! Helper lemmas shared by the claim theorems. -/

lemma pyInt_eq_floor (q : ℚ) (h : 0 ≤ q) : pyInt q = ⌊q⌋ := by
  rw [Rat.floor_def]
  exact Int.tdiv_eq_ediv (Rat.num_nonneg.mpr h) (Int.natCast_nonneg _)

lemma taskTriples_eq_tripleProd (sources : List SourceAudience) (countries : List String)
    (ratios : List (Option ℚ)) :
    taskTriples sources countries ratios = tripleProd sources countries ratios := rfl

lemma one_hundredth_pos : (0 : ℚ) < 1 / 100 := by norm_num

lemma one_hundredth_lt_one : (1 : ℚ) / 100 < 1 := by norm_num

/-- C1: for every country string, source name, and ratio in (0,1], the naming
policy produces exactly `"{COUNTRY_UPPER}-{percentage}%-{sourceName}"` with
`percentage = floor(ratio * 100)`, so in particular the name ends with
`"{percentage}%-{sourceName}"`. -/
theorem naming_policy_floor (country source_audience_name : String) (q : ℚ)
    (h0 : 0 < q) (h1 : q ≤ 1) :
    lookalike_name_of country q source_audience_name =
      strUpper country ++ "-" ++ toString ⌊q * 100⌋ ++ "%-" ++ source_audience_name ∧
    ∃ pre, lookalike_name_of country q source_audience_name =
      pre ++ (toString ⌊q * 100⌋ ++ "%-" ++ source_audience_name) := by
  have hf : pyInt (q * 100) = ⌊q * 100⌋ := pyInt_eq_floor _ (by positivity)
  refine ⟨by rw [lookalike_name_of, hf], ⟨strUpper country ++ "-", ?_⟩⟩
  rw [lookalike_name_of, hf]
  simp [String.append_assoc]

theorem naming_policy_floor_witness :
    (0 : ℚ) < 1 ∧ (1 : ℚ) ≤ 1 ∧
    (lookalike_name_of "tw" 1 "VIP客群" =
      strUpper "tw" ++ "-" ++ toString ⌊(1 : ℚ) * 100⌋ ++ "%-" ++ "VIP客群" ∧
    ∃ pre, lookalike_name_of "tw" 1 "VIP客群" =
      pre ++ (toString ⌊(1 : ℚ) * 100⌋ ++ "%-" ++ "VIP客群")) :=
  ⟨by decide, by decide, naming_policy_floor "tw" "VIP客群" 1 (by decide) (by decide)⟩

/-- C5: the creation request carries the lookalike spec with starting ratio
`ratio - 0.01` when `ratio > 0.01` and `0` when `ratio ≤ 0.01`, the target
ratio itself, the origin audience id, and the single given country. -/
theorem executor_request_content (ad_account_id source_audience_id source_audience_name
    country : String) (q r : ℚ) (hq : 1 / 100 < q) (hr : r ≤ 1 / 100) :
    (create_params_of ad_account_id source_audience_id source_audience_name
        country q).lookalike_spec.starting_ratio = q - 1 / 100 ∧
    (create_params_of ad_account_id source_audience_id source_audience_name
        country r).lookalike_spec.starting_ratio = 0 ∧
    ∀ p : ℚ,
      (create_params_of ad_account_id source_audience_id source_audience_name
          country p).lookalike_spec.ratio = p ∧
      (create_params_of ad_account_id source_audience_id source_audience_name
          country p).lookalike_spec.origin_audience_id = source_audience_id ∧
      (create_params_of ad_account_id source_audience_id source_audience_name
          country p).origin_audience_id = source_audience_id ∧
      (create_params_of ad_account_id source_audience_id source_audience_name
          country p).lookalike_spec.location_countries = [country] := by
  refine ⟨?_, ?_, fun p => ⟨rfl, rfl, rfl, rfl⟩⟩
  · simp only [create_params_of, lookalike_spec_of]
    rw [if_pos hq]
  · simp only [create_params_of, lookalike_spec_of]
    rw [if_neg (not_lt.mpr hr)]

theorem executor_request_content_witness :
    (1 : ℚ) / 100 < 1 ∧ (1 : ℚ) / 100 ≤ 1 / 100 ∧
    ((create_params_of "924" "111" "S1" "TW" 1).lookalike_spec.starting_ratio = 1 - 1 / 100 ∧
    (create_params_of "924" "111" "S1" "TW" (1 / 100)).lookalike_spec.starting_ratio = 0 ∧
    ∀ p : ℚ,
      (create_params_of "924" "111" "S1" "TW" p).lookalike_spec.ratio = p ∧
      (create_params_of "924" "111" "S1" "TW" p).lookalike_spec.origin_audience_id = "111" ∧
      (create_params_of "924" "111" "S1" "TW" p).origin_audience_id = "111" ∧
      (create_params_of "924" "111" "S1" "TW" p).lookalike_spec.location_countries = ["TW"]) :=
  ⟨one_hundredth_lt_one, le_refl _,
    executor_request_content "924" "111" "S1" "TW" 1 (1 / 100)
      one_hundredth_lt_one (le_refl _)⟩

/-- C2 (counterexample): on a duplicate-name rejection under the skip policy
the returned reason is the fixed string `"同名受眾已存在"`, not the literal
string `"duplicate name"`. -/
theorem executor_skip_reason_counterexample :
    (run_task "924" "skip"
        (fun _ => .apiError "This name is already used by an existing audience.")
        ⟨"111", "S1"⟩ "TW" 1).status = "skipped" ∧
    (run_task "924" "skip"
        (fun _ => .apiError "This name is already used by an existing audience.")
        ⟨"111", "S1"⟩ "TW" 1).reason ≠ some "duplicate name" := by
  exact ⟨by decide, by decide⟩

/-- C2 (amended): when the remote create call is rejected with an error
message containing the duplicate-name condition and the conflict policy is
`skip`, the executor returns a skipped result whose reason is the fixed
duplicate-name notice `"同名受眾已存在"`; on any other rejection, or a
duplicate-name rejection under `strict`, it returns a failed result whose
reason is the remote-supplied message. -/
theorem executor_conflict_classification (ad_account_id conflict_strategy msg : String)
    (src : SourceAudience) (country : String) (q : ℚ)
    (remote : CreateParams → CreateOutcome)
    (hrem : remote (create_params_of ad_account_id src.id src.name country q) =
      .apiError msg) :
    (strContains msg "name is already used" = true → conflict_strategy = "skip" →
      run_task ad_account_id conflict_strategy remote src country q =
        { status := "skipped", name := lookalike_name_of country q src.name,
          id := none, reason := some "同名受眾已存在" }) ∧
    ((strContains msg "name is already used" = false ∨ conflict_strategy ≠ "skip") →
      run_task ad_account_id conflict_strategy remote src country q =
        { status := "failed", name := lookalike_name_of country q src.name,
          id := none, reason := some msg }) := by
  constructor
  · intro hc hs
    simp [run_task, hrem, hc, hs]
  · intro h
    rcases h with h | h
    · simp [run_task, hrem, h]
    · simp [run_task, hrem, h]

theorem executor_conflict_classification_witness :
    run_task "924" "skip"
        (fun _ => .apiError "This name is already used by an existing audience.")
        ⟨"111", "S1"⟩ "TW" 1 =
      { status := "skipped", name := lookalike_name_of "TW" 1 "S1",
        id := none, reason := some "同名受眾已存在" } :=
  (executor_conflict_classification "924" "skip"
      "This name is already used by an existing audience." ⟨"111", "S1"⟩ "TW" 1
      (fun _ => .apiError "This name is already used by an existing audience.")
      rfl).1 (by decide) rfl

lemma recordResult_fields (st : BatchState) (res : TaskResult) (call : CreateParams) :
    (recordResult st res call).tasks_done = st.tasks_done + 1 ∧
    (recordResult st res call).total = st.total ∧
    (recordResult st res call).results = st.results ++ [res] ∧
    (recordResult st res call).calls = st.calls ++ [call] := by
  unfold recordResult
  split
  · exact ⟨rfl, rfl, rfl, rfl⟩
  · split
    · exact ⟨rfl, rfl, rfl, rfl⟩
    · exact ⟨rfl, rfl, rfl, rfl⟩

lemma recordResult_bucket_sum (st : BatchState) (res : TaskResult) (call : CreateParams) :
    (recordResult st res call).success_list.length +
      (recordResult st res call).skipped_list.length +
      (recordResult st res call).failed_list.length =
    st.success_list.length + st.skipped_list.length + st.failed_list.length + 1 := by
  unfold recordResult
  split
  · simp only [List.length_append, List.length_cons, List.length_nil]
    omega
  · split
    · simp only [List.length_append, List.length_cons, List.length_nil]
      omega
    · simp only [List.length_append, List.length_cons, List.length_nil]
      omega

lemma recordResult_invariant (st : BatchState) (res : TaskResult) (call : CreateParams)
    (hsum : st.success_list.length + st.skipped_list.length + st.failed_list.length =
      st.tasks_done) :
    (recordResult st res call).success_list.length +
      (recordResult st res call).skipped_list.length +
      (recordResult st res call).failed_list.length =
    (recordResult st res call).tasks_done := by
  rw [recordResult_bucket_sum, (recordResult_fields st res call).1, hsum]

lemma length_flatMap_const {α β : Type} (l : List α) (f : α → List β) (n : ℕ)
    (h : ∀ a ∈ l, (f a).length = n) : (l.flatMap f).length = l.length * n := by
  induction l with
  | nil => simp
  | cons a l ih =>
      rw [List.flatMap_cons, List.length_append, h a (by simp),
        ih (fun b hb => h b (by simp [hb])), List.length_cons, Nat.succ_mul, Nat.add_comm]

lemma length_tripleProd {α : Type} (sources : List SourceAudience) (countries : List String)
    (ratios : List α) :
    (tripleProd sources countries ratios).length =
      sources.length * countries.length * ratios.length := by
  unfold tripleProd
  rw [Nat.mul_assoc]
  apply length_flatMap_const
  intro s _
  apply length_flatMap_const
  intro c _
  exact List.length_map _ _

lemma countryProd_map_ratio {α β : Type} (countries : List String) (ratios : List α)
    (g : α → β) (s : SourceAudience) :
    (countries.flatMap fun c => (ratios.map g).map (fun r => (s, c, r))) =
      (countries.flatMap fun c => ratios.map (fun r => (s, c, r))).map
        (fun t => (t.1, t.2.1, g t.2.2)) := by
  induction countries with
  | nil => rfl
  | cons c countries ihc =>
      rw [List.flatMap_cons, List.flatMap_cons, List.map_append, ihc, List.map_map,
        List.map_map]
      rfl

lemma tripleProd_map_ratio {α β : Type} (sources : List SourceAudience)
    (countries : List String) (ratios : List α) (g : α → β) :
    tripleProd sources countries (ratios.map g) =
      (tripleProd sources countries ratios).map (fun t => (t.1, t.2.1, g t.2.2)) := by
  unfold tripleProd
  induction sources with
  | nil => rfl
  | cons s sources ih =>
      rw [List.flatMap_cons, List.flatMap_cons, List.map_append, ih,
        countryProd_map_ratio]

lemma taskTriples_map_some (sources : List SourceAudience) (countries : List String)
    (qs : List ℚ) :
    taskTriples sources countries (qs.map some) =
      withParsed (tripleProd sources countries qs) := by
  rw [taskTriples_eq_tripleProd, tripleProd_map_ratio]
  rfl

lemma runBatchAux_parsed (ad_account_id conflict_strategy : String)
    (remote : CreateParams → CreateOutcome) (ts : List (SourceAudience × String × ℚ))
    (st : BatchState) :
    runBatchAux ad_account_id conflict_strategy remote st (withParsed ts) =
      .ok (ts.foldl (foldStep ad_account_id conflict_strategy remote) st) := by
  induction ts generalizing st with
  | nil => rfl
  | cons t ts ih =>
      rw [List.foldl_cons, ← ih (foldStep ad_account_id conflict_strategy remote st t)]
      rfl

lemma foldRun_fields (ad_account_id conflict_strategy : String)
    (remote : CreateParams → CreateOutcome) (ts : List (SourceAudience × String × ℚ))
    (st : BatchState) :
    (ts.foldl (foldStep ad_account_id conflict_strategy remote) st).total = st.total ∧
    (ts.foldl (foldStep ad_account_id conflict_strategy remote) st).tasks_done =
      st.tasks_done + ts.length ∧
    (ts.foldl (foldStep ad_account_id conflict_strategy remote) st).results =
      st.results ++ ts.map (fun t =>
        run_task ad_account_id conflict_strategy remote t.1 t.2.1 t.2.2) ∧
    (ts.foldl (foldStep ad_account_id conflict_strategy remote) st).calls =
      st.calls ++ ts.map (fun t =>
        create_params_of ad_account_id t.1.id t.1.name t.2.1 t.2.2) := by
  induction ts generalizing st with
  | nil => simp
  | cons t ts ih =>
      rw [List.foldl_cons]
      obtain ⟨i1, i2, i3, i4⟩ := ih (foldStep ad_account_id conflict_strategy remote st t)
      obtain ⟨r1, r2, r3, r4⟩ := recordResult_fields st
        (run_task ad_account_id conflict_strategy remote t.1 t.2.1 t.2.2)
        (create_params_of ad_account_id t.1.id t.1.name t.2.1 t.2.2)
      refine ⟨?_, ?_, ?_, ?_⟩
      · rw [i1, foldStep, r2]
      · rw [i2, foldStep, r1, List.length_cons]
        omega
      · rw [i3, foldStep, r3, List.map_cons]
        simp
      · rw [i4, foldStep, r4, List.map_cons]
        simp

lemma foldRun_bucket_sum (ad_account_id conflict_strategy : String)
    (remote : CreateParams → CreateOutcome) (ts : List (SourceAudience × String × ℚ))
    (st : BatchState)
    (h : st.success_list.length + st.skipped_list.length + st.failed_list.length =
      st.tasks_done) :
    (ts.foldl (foldStep ad_account_id conflict_strategy remote) st).success_list.length +
      (ts.foldl (foldStep ad_account_id conflict_strategy remote) st).skipped_list.length +
      (ts.foldl (foldStep ad_account_id conflict_strategy remote) st).failed_list.length =
    (ts.foldl (foldStep ad_account_id conflict_strategy remote) st).tasks_done := by
  induction ts generalizing st with
  | nil => exact h
  | cons t ts ih =>
      rw [List.foldl_cons]
      exact ih _ (recordResult_invariant _ _ _ h)

lemma runBatchAux_invariant (ad_account_id conflict_strategy : String)
    (remote : CreateParams → CreateOutcome) (ts : List BatchTask) (st : BatchState)
    (hsum : st.success_list.length + st.skipped_list.length + st.failed_list.length =
      st.tasks_done)
    (hlen : st.tasks_done + ts.length ≤ st.total) :
    reachedInvariant (runBatchAux ad_account_id conflict_strategy remote st ts) := by
  induction ts generalizing st with
  | nil => exact ⟨by simpa using hlen, hsum⟩
  | cons t ts ih =>
      rw [List.length_cons] at hlen
      simp only [runBatchAux]
      rcases ht : t.2.2 with _ | q
      · simp only [batchStep, ht]
        exact ⟨by omega, hsum⟩
      · simp only [batchStep, ht]
        obtain ⟨r1, r2, _, _⟩ := recordResult_fields st
          (run_task ad_account_id conflict_strategy remote t.1 t.2.1 q)
          (create_params_of ad_account_id t.1.id t.1.name t.2.1 q)
        apply ih
        · exact recordResult_invariant _ _ _ hsum
        · rw [r1, r2]
          omega

lemma recordResult_bucketRep (st : BatchState) (res : TaskResult) (call : CreateParams)
    (h : bucketRep st) : bucketRep (recordResult st res call) := by
  obtain ⟨h1, h2, h3⟩ := h
  unfold bucketRep recordResult
  split
  next e1 =>
    refine ⟨?_, ?_, ?_⟩
    · simp [h1, List.filter_append, succP, e1]
    · simp [h2, List.filter_append, skipP, e1]
    · simp [h3, List.filter_append, failP, e1]
  next e1 =>
    split
    next e2 =>
      refine ⟨?_, ?_, ?_⟩
      · simp [h1, List.filter_append, succP, e1]
      · simp [h2, List.filter_append, skipP, e1, e2]
      · simp [h3, List.filter_append, failP, e1, e2]
    next e2 =>
      refine ⟨?_, ?_, ?_⟩
      · simp [h1, List.filter_append, succP, e1]
      · simp [h2, List.filter_append, skipP, e1, e2]
      · simp [h3, List.filter_append, failP, e1, e2]

lemma foldRun_bucketRep (ad_account_id conflict_strategy : String)
    (remote : CreateParams → CreateOutcome) (ts : List (SourceAudience × String × ℚ))
    (st : BatchState) (h : bucketRep st) :
    bucketRep (ts.foldl (foldStep ad_account_id conflict_strategy remote) st) := by
  induction ts generalizing st with
  | nil => exact h
  | cons t ts ih =>
      rw [List.foldl_cons]
      exact ih _ (recordResult_bucketRep _ _ _ h)

/-- C3: at every point during and after a batch run — every prefix of the
task enumeration, whether the run continues or aborts there — `completed`
never exceeds `total` and the three bucket lengths sum to `completed`. -/
theorem batch_invariant (ad_account_id conflict_strategy : String)
    (remote : CreateParams → CreateOutcome) (sources : List SourceAudience)
    (countries : List String) (ratios : List (Option ℚ)) (p q : List BatchTask)
    (h : taskTriples sources countries ratios = p ++ q) :
    reachedInvariant (runBatchAux ad_account_id conflict_strategy remote
      (initState (total_tasks sources countries ratios)) p) := by
  apply runBatchAux_invariant
  · rfl
  · have hlen : (taskTriples sources countries ratios).length =
        total_tasks sources countries ratios := by
      rw [taskTriples_eq_tripleProd, length_tripleProd]
      rfl
    rw [h, List.length_append] at hlen
    show 0 + p.length ≤ total_tasks sources countries ratios
    omega

theorem batch_invariant_witness :
    taskTriples [⟨"111", "S1"⟩] ["TW"] [some 1] = [(⟨"111", "S1"⟩, "TW", some 1)] ++ [] ∧
    reachedInvariant (runBatchAux "924" "skip" (fun _ => .ok "lal9")
      (initState (total_tasks [⟨"111", "S1"⟩] ["TW"] [some 1]))
      [(⟨"111", "S1"⟩, "TW", some 1)]) :=
  ⟨rfl, batch_invariant "924" "skip" (fun _ => .ok "lal9") [⟨"111", "S1"⟩] ["TW"]
    [some 1] [(⟨"111", "S1"⟩, "TW", some 1)] [] rfl⟩

/-- C4: for non-empty sources, countries and ratios the batch sets `total`
to the product of the three lengths, the run terminates normally, and at the
end `completed = total` with the three bucket lengths summing to
`completed`. -/
theorem batch_completion (ad_account_id conflict_strategy : String)
    (remote : CreateParams → CreateOutcome) (sources : List SourceAudience)
    (countries : List String) (qs : List ℚ)
    (hs : sources ≠ []) (hc : countries ≠ []) (hr : qs ≠ []) :
    ∃ st : BatchState,
      runBatch ad_account_id sources countries (qs.map some) conflict_strategy remote =
        .ran (.ok st) ∧
      st.total = sources.length * countries.length * qs.length ∧
      st.tasks_done = st.total ∧
      st.success_list.length + st.skipped_list.length + st.failed_list.length =
        st.tasks_done := by
  have hmap : qs.map some ≠ ([] : List (Option ℚ)) := by
    simpa using hr
  refine ⟨(tripleProd sources countries qs).foldl
    (foldStep ad_account_id conflict_strategy remote)
    (initState (total_tasks sources countries (qs.map some))), ?_, ?_, ?_, ?_⟩
  · rw [runBatch, if_neg (by simp [hs, hc, hmap]), taskTriples_map_some,
      runBatchAux_parsed]
  · obtain ⟨f1, _, _, _⟩ := foldRun_fields ad_account_id conflict_strategy remote
      (tripleProd sources countries qs)
      (initState (total_tasks sources countries (qs.map some)))
    rw [f1]
    show total_tasks sources countries (qs.map some) = _
    rw [total_tasks, List.length_map]
  · obtain ⟨f1, f2, _, _⟩ := foldRun_fields ad_account_id conflict_strategy remote
      (tripleProd sources countries qs)
      (initState (total_tasks sources countries (qs.map some)))
    rw [f1, f2, length_tripleProd]
    simp [initState, total_tasks, List.length_map]
  · exact foldRun_bucket_sum _ _ _ _ _ rfl

theorem batch_completion_witness :
    ([⟨"111", "S1"⟩] : List SourceAudience) ≠ [] ∧ (["TW"] : List String) ≠ [] ∧
    ([1] : List ℚ) ≠ [] ∧
    ∃ st : BatchState,
      runBatch "924" [⟨"111", "S1"⟩] ["TW"] (List.map some ([1] : List ℚ)) "skip"
          (fun _ => .ok "lal9") = .ran (.ok st) ∧
      st.total = ([⟨"111", "S1"⟩] : List SourceAudience).length * ["TW"].length *
        ([1] : List ℚ).length ∧
      st.tasks_done = st.total ∧
      st.success_list.length + st.skipped_list.length + st.failed_list.length =
        st.tasks_done :=
  ⟨by simp, by simp, by simp,
    batch_completion "924" "skip" (fun _ => .ok "lal9") [⟨"111", "S1"⟩] ["TW"] [1]
      (by simp) (by simp) (by simp)⟩

/-- C6: the orchestrator enumerates the triple product in the fixed nested
order (source outer, country middle, ratio inner), the result list follows
exactly that enumeration order, and each outcome bucket lists its entries in
the order their triples were generated (the bucket is the in-order filter of
the result list). -/
theorem batch_order (ad_account_id conflict_strategy : String)
    (remote : CreateParams → CreateOutcome) (sources : List SourceAudience)
    (countries : List String) (qs : List ℚ) :
    tripleProd sources countries qs =
      sources.flatMap (fun s => countries.flatMap (fun c => qs.map (fun q => (s, c, q)))) ∧
    ∃ st : BatchState,
      runBatchAux ad_account_id conflict_strategy remote
          (initState (total_tasks sources countries (qs.map some)))
          (taskTriples sources countries (qs.map some)) = .ok st ∧
      st.results = (tripleProd sources countries qs).map
        (fun t => run_task ad_account_id conflict_strategy remote t.1 t.2.1 t.2.2) ∧
      st.success_list = (st.results.filter succP).map fmtSuccess ∧
      st.skipped_list = (st.results.filter skipP).map fmtReason ∧
      st.failed_list = (st.results.filter failP).map fmtReason := by
  refine ⟨rfl, (tripleProd sources countries qs).foldl
    (foldStep ad_account_id conflict_strategy remote)
    (initState (total_tasks sources countries (qs.map some))), ?_, ?_, ?_, ?_, ?_⟩
  · rw [taskTriples_map_some, runBatchAux_parsed]
  · obtain ⟨_, _, f3, _⟩ := foldRun_fields ad_account_id conflict_strategy remote
      (tripleProd sources countries qs)
      (initState (total_tasks sources countries (qs.map some)))
    rw [f3]
    rfl
  · exact (foldRun_bucketRep _ _ _ _ _ ⟨rfl, rfl, rfl⟩).1
  · exact (foldRun_bucketRep _ _ _ _ _ ⟨rfl, rfl, rfl⟩).2.1
  · exact (foldRun_bucketRep _ _ _ _ _ ⟨rfl, rfl, rfl⟩).2.2

/-- C7: when sources, countries or ratios is empty the batch never starts:
the section shows the incomplete-configuration notice, the task enumeration
is empty, and the task count is zero, so the executor is never invoked. -/
theorem batch_empty_config (ad_account_id conflict_strategy : String)
    (remote : CreateParams → CreateOutcome) (sources : List SourceAudience)
    (countries : List String) (ratios : List (Option ℚ))
    (h : sources = [] ∨ countries = [] ∨ ratios = []) :
    runBatch ad_account_id sources countries ratios conflict_strategy remote =
      .incomplete incompleteMsg ∧
    taskTriples sources countries ratios = [] ∧
    total_tasks sources countries ratios = 0 := by
  refine ⟨?_, ?_, ?_⟩
  · rw [runBatch, if_pos h]
  · rcases h with h | h | h <;> simp [taskTriples, tripleProd, h]
  · rcases h with h | h | h <;> simp [total_tasks, h]

theorem batch_empty_config_witness :
    (([] : List SourceAudience) = [] ∨ (["TW"] : List String) = [] ∨
      ([some 1] : List (Option ℚ)) = []) ∧
    (runBatch "924" [] ["TW"] [some 1] "skip" (fun _ => .ok "lal9") =
        .incomplete incompleteMsg ∧
      taskTriples [] ["TW"] [some 1] = [] ∧
      total_tasks [] ["TW"] [some 1] = 0) :=
  ⟨Or.inl rfl, batch_empty_config "924" "skip" (fun _ => .ok "lal9") [] ["TW"] [some 1]
    (Or.inl rfl)⟩

/-- C8: in a run over parsed ratios the loop terminates normally after the
last triple with no early abort, exactly one remote create call is issued per
triple (the call trace is exactly the enumeration mapped to its request), and
every triple yields exactly one recorded result. -/
theorem batch_calls_exactly_once (ad_account_id conflict_strategy : String)
    (remote : CreateParams → CreateOutcome) (sources : List SourceAudience)
    (countries : List String) (qs : List ℚ) :
    ∃ st : BatchState,
      runBatchAux ad_account_id conflict_strategy remote
          (initState (total_tasks sources countries (qs.map some)))
          (taskTriples sources countries (qs.map some)) = .ok st ∧
      st.calls = (tripleProd sources countries qs).map
        (fun t => create_params_of ad_account_id t.1.id t.1.name t.2.1 t.2.2) ∧
      st.results.length = (tripleProd sources countries qs).length := by
  refine ⟨(tripleProd sources countries qs).foldl
    (foldStep ad_account_id conflict_strategy remote)
    (initState (total_tasks sources countries (qs.map some))), ?_, ?_, ?_⟩
  · rw [taskTriples_map_some, runBatchAux_parsed]
  · obtain ⟨_, _, _, f4⟩ := foldRun_fields ad_account_id conflict_strategy remote
      (tripleProd sources countries qs)
      (initState (total_tasks sources countries (qs.map some)))
    rw [f4]
    rfl
  · obtain ⟨_, _, f3, _⟩ := foldRun_fields ad_account_id conflict_strategy remote
      (tripleProd sources countries qs)
      (initState (total_tasks sources countries (qs.map some)))
    rw [f3]
    simp [initState]

/-- C9: the audience listing request carries the fixed page size 500; on a
successful remote page the rows come back sorted by `updated_time`
descending (a permutation of the converted rows) with no error message; on a
`FacebookRequestError` or any other exception the call returns an empty
listing together with a prefixed human-readable message instead of
raising. -/
theorem listing_spec (fmt : String → String) (oracle : ListingParams → ListingOutcome) :
    listing_params.limit = 500 ∧
    (∀ raw : List RawAudience, oracle listing_params = .ok raw →
      (get_custom_audiences fmt oracle).2 = none ∧
      List.Pairwise (fun a b => b.updated_time ≤ a.updated_time)
        (get_custom_audiences fmt oracle).1 ∧
      (get_custom_audiences fmt oracle).1.Perm (raw.map (toRecord fmt))) ∧
    (∀ m, oracle listing_params = .apiError m →
      get_custom_audiences fmt oracle = ([], some ("獲取受眾失敗 (API 錯誤): " ++ m))) ∧
    (∀ m, oracle listing_params = .exn m →
      get_custom_audiences fmt oracle = ([], some ("獲取受眾失敗 (未知錯誤): " ++ m))) := by
  refine ⟨rfl, ?_, ?_, ?_⟩
  · intro raw hok
    simp only [get_custom_audiences, hok]
    exact ⟨trivial, List.sorted_insertionSort updatedDesc _,
      List.perm_insertionSort updatedDesc _⟩
  · intro m hm
    simp only [get_custom_audiences, hm]
  · intro m hm
    simp only [get_custom_audiences, hm]

theorem listing_spec_witness :
    (fun _ : ListingParams => ListingOutcome.apiError "boom") listing_params =
      .apiError "boom" ∧
    get_custom_audiences (fun s => s) (fun _ => .apiError "boom") =
      ([], some ("獲取受眾失敗 (API 錯誤): " ++ "boom")) :=
  ⟨rfl, (listing_spec (fun s => s) (fun _ => .apiError "boom")).2.2.1 "boom" rfl⟩

lemma run_task_shape (ad_account_id conflict_strategy : String)
    (remote : CreateParams → CreateOutcome) (src : SourceAudience) (country : String)
    (q : ℚ) :
    ((run_task ad_account_id conflict_strategy remote src country q).status = "success" ∨
      (run_task ad_account_id conflict_strategy remote src country q).status = "skipped" ∨
      (run_task ad_account_id conflict_strategy remote src country q).status = "failed") ∧
    (run_task ad_account_id conflict_strategy remote src country q).name =
      lookalike_name_of country q src.name := by
  cases h : remote (create_params_of ad_account_id src.id src.name country q) with
  | ok rid => simp [run_task, h]
  | apiError msg =>
      by_cases hc :
        (strContains msg "name is already used" && (conflict_strategy == "skip")) = true
      · simp [run_task, h, hc]
      · simp [run_task, h, hc]
  | exn msg => simp [run_task, h]

/-- C10: with a ratio that parses, `create_lookalike_audience` is total —
it always returns a result whose status is success, skipped or failed and
whose name is the computed lookalike name — while with a ratio string that
does not parse it propagates the parse exception instead of returning a
failed result, because the name computation precedes the exception
handler. -/
theorem executor_totality (ad_account_id source_audience_id source_audience_name country
    conflict_strategy : String) (remote : CreateParams → CreateOutcome) :
    (∀ q : ℚ, ∃ res : TaskResult,
      create_lookalike_audience ad_account_id source_audience_id source_audience_name
          country (some q) conflict_strategy remote = .ok res ∧
      (res.status = "success" ∨ res.status = "skipped" ∨ res.status = "failed") ∧
      res.name = lookalike_name_of country q source_audience_name) ∧
    create_lookalike_audience ad_account_id source_audience_id source_audience_name
        country none conflict_strategy remote =
      .error "could not convert string to float" := by
  constructor
  · intro q
    exact ⟨_, rfl, run_task_shape ad_account_id conflict_strategy remote
      ⟨source_audience_id, source_audience_name⟩ country q⟩
  · rfl

end App
